import Mathlib

/-!
Shallow embedding of `src/scripts/turtlesim_controller.py`.

The controller state mirrors the instance attributes of the Python class
`TurtlesimController`: the immutable `Param` and `Turtle` records, the
optional `prev_turn_pose`, and the integer `turn_count`.  Python floats are
modelled as real numbers and Python ints as integers.  A Python `None` field
is an `Option`.  Reading an attribute of `None` raises an exception in
Python; the per-callback operation is therefore modelled as returning an
`Option` value, `none` standing for an uncaught exception.  ROS publishing
is modelled by returning the published `Twist` alongside the new state.
-/

open Classical

/-- Mirrors `turtlesim.msg.Pose` restricted to the fields the controller
reads: planar position and heading. -/
structure Pose where
  x : ℝ
  y : ℝ
  theta : ℝ

/-- Mirrors the frozen dataclass `Param` of the source. -/
structure Param where
  num_of_sides : ℤ
  length_of_side : ℝ
  turn_direction_th : ℝ

/-- Mirrors the dataclass `Turtle` of the source; `pose` starts as `None`. -/
structure Turtle where
  pose : Option Pose
  velocity : ℝ
  yawrate : ℝ

/-- Mirrors `geometry_msgs.msg.Twist` restricted to the two fields the
controller writes: `linear.x` and `angular.z`.  A fresh `Twist()` is
zero-initialized. -/
structure Twist where
  linear_x : ℝ
  angular_z : ℝ

/-- Value of a freshly constructed `Twist()`: both fields zero. -/
def Twist.mk0 : Twist := ⟨0, 0⟩

/-- The mutable state of a `TurtlesimController` instance. -/
structure TurtlesimController where
  param : Param
  turtle : Turtle
  prev_turn_pose : Option Pose
  turn_count : ℤ

/-- Mirrors `TurtlesimController.__init__` applied to the five configuration
values obtained from `rospy.get_param`.  The constructor stores them and
initializes `prev_turn_pose = None`, `turn_count = 0`; it performs no
validation of any kind and never rejects a configuration. -/
def TurtlesimController.mkInit (num_of_sides : ℤ)
    (length_of_side turn_direction_th velocity yawrate : ℝ) :
    TurtlesimController where
  param := ⟨num_of_sides, length_of_side, turn_direction_th⟩
  turtle := ⟨none, velocity, yawrate⟩
  prev_turn_pose := none
  turn_count := 0

/-- Mirrors `TurtlesimController._can_move`:
`self._turn_count < self._param.num_of_sides`. -/
def can_move (s : TurtlesimController) : Prop :=
  s.turn_count < s.param.num_of_sides

instance (s : TurtlesimController) : Decidable (can_move s) :=
  Int.decLt s.turn_count s.param.num_of_sides

/-- Mirrors `TurtlesimController._calc_distance`:
`math.hypot(pose1.x - pose2.x, pose1.y - pose2.y)`. -/
noncomputable def calc_distance (pose1 pose2 : Pose) : ℝ :=
  Real.sqrt ((pose1.x - pose2.x) ^ 2 + (pose1.y - pose2.y) ^ 2)

/-- Mirrors the `while math.pi < target_direction: target_direction -= 2.0 *
math.pi` loop inside `_calc_target_direction`.  The loop only ever subtracts
`2 * pi`; it never adjusts the value upward. -/
noncomputable def normalize_loop (target_direction : ℝ) : ℝ :=
  if Real.pi < target_direction then
    normalize_loop (target_direction - 2 * Real.pi)
  else
    target_direction
termination_by ⌈target_direction / (2 * Real.pi)⌉₊
decreasing_by
  rename_i h
  have hpi : (0 : ℝ) < Real.pi := Real.pi_pos
  have h2pi : (0 : ℝ) < 2 * Real.pi := by linarith
  have hx : (target_direction - 2 * Real.pi) / (2 * Real.pi)
      = target_direction / (2 * Real.pi) - 1 := by
    field_simp
  rw [hx]
  have hpos : 0 < target_direction / (2 * Real.pi) :=
    div_pos (lt_trans hpi h) h2pi
  have h1 : 1 ≤ ⌈target_direction / (2 * Real.pi)⌉₊ :=
    Nat.one_le_ceil_iff.mpr hpos
  have hle : ⌈target_direction / (2 * Real.pi) - 1⌉₊
      ≤ ⌈target_direction / (2 * Real.pi)⌉₊ - 1 := by
    rw [Nat.ceil_le, Nat.cast_sub h1, Nat.cast_one]
    have := Nat.le_ceil (target_direction / (2 * Real.pi))
    linarith
  omega

/-- Mirrors `TurtlesimController._calc_target_direction`.  Note that, as in
the source, the `pose` and `turn_count` parameters are ignored: the result
is computed from `self._param.num_of_sides` and `self._turn_count` only. -/
noncomputable def calc_target_direction (s : TurtlesimController)
    (pose : Pose) (turn_count : ℤ) : ℝ :=
  let target_direction_base : ℝ := 2 * Real.pi / (s.param.num_of_sides : ℝ)
  let target_direction : ℝ := target_direction_base * ((s.turn_count : ℝ) + 1)
  normalize_loop target_direction

/-- Mirrors `TurtlesimController._get_cmd_vel_to_go_straight`:
a fresh `Twist` with `linear.x = self._turtle.velocity`. -/
def get_cmd_vel_to_go_straight (s : TurtlesimController) : Twist :=
  ⟨s.turtle.velocity, 0⟩

/-- Mirrors `TurtlesimController._get_cmd_vel_to_turn_in_place`:
a fresh `Twist` with `angular.z = self._turtle.yawrate`. -/
def get_cmd_vel_to_turn_in_place (s : TurtlesimController) : Twist :=
  ⟨0, s.turtle.yawrate⟩

/-- Mirrors `TurtlesimController._can_turn`.  The Python method reads
`self._turtle.pose`; when that attribute is `None` the field access raises,
which is modelled by `Option.map` over the stored pose. -/
noncomputable def can_turn (s : TurtlesimController) : Option Prop :=
  s.turtle.pose.map fun pose =>
    s.param.turn_direction_th
        < |calc_target_direction s pose s.turn_count - pose.theta| ∧
      s.turn_count < s.param.num_of_sides - 1

/-- Mirrors `TurtlesimController._set_cmd_vel`.  Returns the new controller
state together with the single `Twist` published during the call, or `none`
when the Python code would raise (a `None` pose reaching a field access).
The structure follows the source line by line: early zero publish when
`_can_move` fails, lazy recapture of `prev_turn_pose`, the
`distance < length_of_side` split, then the `_can_turn` split, with the
zero-initialized `cmd_vel` published in the corner-completion branch. -/
noncomputable def set_cmd_vel (s : TurtlesimController) :
    Option (TurtlesimController × Twist) :=
  if can_move s then
    let s1 : TurtlesimController :=
      if s.prev_turn_pose.isNone then
        { s with prev_turn_pose := s.turtle.pose }
      else s
    match s1.prev_turn_pose, s1.turtle.pose with
    | some prev_turn_pose, some pose =>
      let distance : ℝ := calc_distance prev_turn_pose pose
      if distance < s1.param.length_of_side then
        some (s1, get_cmd_vel_to_go_straight s1)
      else
        match can_turn s1 with
        | some ct =>
          if ct then
            some (s1, get_cmd_vel_to_turn_in_place s1)
          else
            some ({ s1 with
                      turn_count := s1.turn_count + 1
                      prev_turn_pose := none },
                  Twist.mk0)
        | none => none
    | _, _ => none
  else
    some (s, Twist.mk0)

/-- State of the controller after `self._turtle.pose = msg`, the first line
of `_pose_callback`. -/
def with_pose (s : TurtlesimController) (msg : Pose) : TurtlesimController :=
  { s with turtle := { s.turtle with pose := some msg } }

/-- Mirrors `TurtlesimController._pose_callback`: store the received pose,
then run `_set_cmd_vel`. -/
noncomputable def pose_callback (s : TurtlesimController) (msg : Pose) :
    Option (TurtlesimController × Twist) :=
  set_cmd_vel (with_pose s msg)

/-- Runs a sequence of pose callbacks from a starting state, collecting the
published commands; `none` when any callback raises. -/
noncomputable def run_updates :
    TurtlesimController → List Pose → Option (TurtlesimController × List Twist)
  | s, [] => some (s, [])
  | s, msg :: rest => do
    let (s1, cmd) ← pose_callback s msg
    let (s2, cmds) ← run_updates s1 rest
    return (s2, cmd :: cmds)

/-! Helper lemmas shared by the claim theorems. -/

theorem with_pose_param (s : TurtlesimController) (msg : Pose) :
    (with_pose s msg).param = s.param := rfl

theorem with_pose_turn_count (s : TurtlesimController) (msg : Pose) :
    (with_pose s msg).turn_count = s.turn_count := rfl

theorem with_pose_prev_turn_pose (s : TurtlesimController) (msg : Pose) :
    (with_pose s msg).prev_turn_pose = s.prev_turn_pose := rfl

theorem with_pose_velocity (s : TurtlesimController) (msg : Pose) :
    (with_pose s msg).turtle.velocity = s.turtle.velocity := rfl

theorem with_pose_yawrate (s : TurtlesimController) (msg : Pose) :
    (with_pose s msg).turtle.yawrate = s.turtle.yawrate := rfl

theorem with_pose_pose (s : TurtlesimController) (msg : Pose) :
    (with_pose s msg).turtle.pose = some msg := rfl

theorem can_move_with_pose (s : TurtlesimController) (msg : Pose) :
    can_move (with_pose s msg) ↔ can_move s := Iff.rfl

theorem calc_target_direction_with_pose (s : TurtlesimController)
    (msg p : Pose) (t : ℤ) :
    calc_target_direction (with_pose s msg) p t = calc_target_direction s p t :=
  rfl

/-- The target-direction computation reads only `param.num_of_sides` and the
internal `turn_count`; its explicit `pose` and `turn_count` arguments are
dead. -/
theorem calc_target_direction_congr {s1 s2 : TurtlesimController}
    {p1 p2 : Pose} {t1 t2 : ℤ}
    (hn : s1.param.num_of_sides = s2.param.num_of_sides)
    (hc : s1.turn_count = s2.turn_count) :
    calc_target_direction s1 p1 t1 = calc_target_direction s2 p2 t2 := by
  unfold calc_target_direction
  rw [hn, hc]

theorem calc_distance_self (p : Pose) : calc_distance p p = 0 := by
  simp [calc_distance]

theorem normalize_loop_of_le {t : ℝ} (h : t ≤ Real.pi) :
    normalize_loop t = t := by
  rw [normalize_loop]
  exact if_neg (not_lt.mpr h)

theorem normalize_loop_of_gt {t : ℝ} (h : Real.pi < t) :
    normalize_loop t = normalize_loop (t - 2 * Real.pi) := by
  rw [normalize_loop]
  exact if_pos h

/-- When `_can_move` fails, the callback publishes the zero twist and only
`latest_pose` changes. -/
theorem pose_callback_stopped {s : TurtlesimController} (msg : Pose)
    (h : ¬ can_move s) :
    pose_callback s msg = some (with_pose s msg, Twist.mk0) := by
  unfold pose_callback set_cmd_vel
  exact if_neg h

/-- Evaluation of one callback when the reference pose is established. -/
theorem set_cmd_vel_established {s : TurtlesimController} {msg ref : Pose}
    (hm : can_move s) (hprev : s.prev_turn_pose = some ref) :
    pose_callback s msg =
      (if calc_distance ref msg < s.param.length_of_side then
        some (with_pose s msg, ⟨s.turtle.velocity, 0⟩)
      else if s.param.turn_direction_th
            < |calc_target_direction s msg s.turn_count - msg.theta| ∧
          s.turn_count < s.param.num_of_sides - 1 then
        some (with_pose s msg, ⟨0, s.turtle.yawrate⟩)
      else
        some ({ with_pose s msg with
                  turn_count := s.turn_count + 1
                  prev_turn_pose := none }, Twist.mk0)) := by
  unfold pose_callback set_cmd_vel
  rw [if_pos (c := can_move (with_pose s msg)) hm]
  have hprev1 : (with_pose s msg).prev_turn_pose = some ref := hprev
  simp only [hprev1, Option.isNone_some, Bool.false_eq_true, if_false,
    with_pose_pose, can_turn, Option.map_some', with_pose_param,
    with_pose_turn_count, with_pose_velocity, with_pose_yawrate,
    calc_target_direction_with_pose, get_cmd_vel_to_go_straight,
    get_cmd_vel_to_turn_in_place]

/-- Evaluation of one callback when the reference pose is missing: it is
recaptured as the incoming pose before the distance test. -/
theorem set_cmd_vel_recapture {s : TurtlesimController} {msg : Pose}
    (hm : can_move s) (hprev : s.prev_turn_pose = none) :
    pose_callback s msg =
      (if calc_distance msg msg < s.param.length_of_side then
        some ({ with_pose s msg with prev_turn_pose := some msg },
              ⟨s.turtle.velocity, 0⟩)
      else if s.param.turn_direction_th
            < |calc_target_direction s msg s.turn_count - msg.theta| ∧
          s.turn_count < s.param.num_of_sides - 1 then
        some ({ with_pose s msg with prev_turn_pose := some msg },
              ⟨0, s.turtle.yawrate⟩)
      else
        some ({ with_pose s msg with
                  turn_count := s.turn_count + 1
                  prev_turn_pose := none }, Twist.mk0)) := by
  unfold pose_callback set_cmd_vel
  rw [if_pos (c := can_move (with_pose s msg)) hm]
  have hprev1 : (with_pose s msg).prev_turn_pose = none := hprev
  simp only [hprev1, Option.isNone_none, if_true, with_pose_pose, can_turn,
    Option.map_some', get_cmd_vel_to_go_straight, get_cmd_vel_to_turn_in_place,
    calc_target_direction, with_pose_param, with_pose_turn_count,
    with_pose_velocity, with_pose_yawrate]

/-- In the terminal regime every callback publishes the zero twist and the
counter and configuration never change. -/
theorem run_updates_terminal :
    ∀ (msgs : List Pose) (s : TurtlesimController),
      s.param.num_of_sides ≤ s.turn_count →
      ∃ sfin : TurtlesimController,
        run_updates s msgs = some (sfin, List.replicate msgs.length Twist.mk0) ∧
        sfin.turn_count = s.turn_count ∧ sfin.param = s.param := by
  intro msgs
  induction msgs with
  | nil =>
    intro s h
    exact ⟨s, rfl, rfl, rfl⟩
  | cons msg rest ih =>
    intro s h
    have hcm : ¬ can_move s := not_lt.mpr h
    obtain ⟨sfin, hrun, hc, hp⟩ := ih (with_pose s msg) h
    refine ⟨sfin, ?_, hc, hp⟩
    simp [run_updates, pose_callback_stopped msg hcm, hrun, List.replicate_succ]

/-- One callback never raises, preserves the configuration, and changes the
turn counter by zero or (only while `_can_move` holds) exactly one. -/
theorem pose_callback_total_step (s : TurtlesimController) (msg : Pose) :
    ∃ s' cmd, pose_callback s msg = some (s', cmd) ∧
      s'.param = s.param ∧ s'.turtle.velocity = s.turtle.velocity ∧
      s'.turtle.yawrate = s.turtle.yawrate ∧
      (s'.turn_count = s.turn_count ∨
        (s'.turn_count = s.turn_count + 1 ∧ can_move s)) := by
  by_cases hm : can_move s
  · cases hprev : s.prev_turn_pose with
    | some ref =>
      rw [set_cmd_vel_established hm hprev]
      split_ifs with h1 h2
      · exact ⟨_, _, rfl, rfl, rfl, rfl, Or.inl rfl⟩
      · exact ⟨_, _, rfl, rfl, rfl, rfl, Or.inl rfl⟩
      · exact ⟨_, _, rfl, rfl, rfl, rfl, Or.inr ⟨rfl, hm⟩⟩
    | none =>
      rw [set_cmd_vel_recapture hm hprev]
      split_ifs with h1 h2
      · exact ⟨_, _, rfl, rfl, rfl, rfl, Or.inl rfl⟩
      · exact ⟨_, _, rfl, rfl, rfl, rfl, Or.inl rfl⟩
      · exact ⟨_, _, rfl, rfl, rfl, rfl, Or.inr ⟨rfl, hm⟩⟩
  · exact ⟨_, _, pose_callback_stopped msg hm, rfl, rfl, rfl, Or.inl rfl⟩

/-- The invariant `0 ≤ turn_count ≤ num_of_sides` is preserved by any run of
callbacks, and the configuration never changes. -/
theorem run_updates_invariant :
    ∀ (msgs : List Pose) (s s' : TurtlesimController) (cmds : List Twist),
      run_updates s msgs = some (s', cmds) →
      0 ≤ s.turn_count → s.turn_count ≤ s.param.num_of_sides →
      0 ≤ s'.turn_count ∧ s'.turn_count ≤ s'.param.num_of_sides ∧
        s'.param = s.param := by
  intro msgs
  induction msgs with
  | nil =>
    intro s s' cmds h h0 hle
    simp only [run_updates, Option.some_inj, Prod.mk.injEq] at h
    obtain ⟨rfl, rfl⟩ := h
    exact ⟨h0, hle, rfl⟩
  | cons msg rest ih =>
    intro s s' cmds h h0 hle
    obtain ⟨s1, cmd, heq, hparam, _, _, hstep⟩ := pose_callback_total_step s msg
    rw [run_updates, heq] at h
    simp only [Option.pure_def, Option.bind_eq_bind, Option.some_bind] at h
    cases hrun : run_updates s1 rest with
    | none =>
      rw [hrun] at h
      simp at h
    | some p =>
      obtain ⟨s2, cmds2⟩ := p
      rw [hrun] at h
      simp only [Option.some_bind, Option.some_inj, Prod.mk.injEq] at h
      obtain ⟨rfl, rfl⟩ := h
      have hcm : ∀ hc : can_move s, s.turn_count < s.param.num_of_sides :=
        fun hc => hc
      have h0' : 0 ≤ s1.turn_count := by
        rcases hstep with h' | ⟨h', _⟩ <;> omega
      have hle' : s1.turn_count ≤ s1.param.num_of_sides := by
        rw [hparam]
        rcases hstep with h' | ⟨h', hmv⟩
        · omega
        · have := hcm hmv
          omega
      obtain ⟨ha, hb, hc⟩ := ih s1 s2 cmds2 hrun h0' hle'
      exact ⟨ha, hb, by rw [hc, hparam]⟩

/-! Claim theorems. -/

/-- C1: once `turn_count` has reached `num_of_sides`, every pose update
publishes the zero command and changes nothing except the stored latest
pose, and every subsequent run of updates publishes only zero commands,
leaving `turn_count` unchanged. -/
theorem terminal_stability (s : TurtlesimController) (msg : Pose)
    (hterm : s.turn_count = s.param.num_of_sides) :
    pose_callback s msg = some (with_pose s msg, Twist.mk0) ∧
    (with_pose s msg).turn_count = s.turn_count ∧
    (with_pose s msg).prev_turn_pose = s.prev_turn_pose ∧
    (with_pose s msg).param = s.param ∧
    (with_pose s msg).turtle.velocity = s.turtle.velocity ∧
    (with_pose s msg).turtle.yawrate = s.turtle.yawrate ∧
    ∀ msgs : List Pose, ∃ sfin : TurtlesimController,
      run_updates s msgs = some (sfin, List.replicate msgs.length Twist.mk0) ∧
      sfin.turn_count = s.turn_count := by
  have hcm : ¬ can_move s := by
    unfold can_move
    omega
  refine ⟨pose_callback_stopped msg hcm, rfl, rfl, rfl, rfl, rfl, ?_⟩
  intro msgs
  obtain ⟨sfin, hrun, hc, -⟩ := run_updates_terminal msgs s (le_of_eq hterm.symm)
  exact ⟨sfin, hrun, hc⟩

/-- Witness for C1: a concrete terminal triangle controller. -/
theorem terminal_stability_witness :
    pose_callback
        { TurtlesimController.mkInit 3 1 (1/100) (1/2) (3/10) with
            turn_count := 3 } ⟨0, 0, 0⟩
      = some (with_pose
          { TurtlesimController.mkInit 3 1 (1/100) (1/2) (3/10) with
              turn_count := 3 } ⟨0, 0, 0⟩, Twist.mk0) :=
  (terminal_stability _ _ rfl).1

/-- C2 counterexample: the constructor does not reject the invalid
configuration `num_of_sides = 2`; the controller starts (with
`turn_count = 0`) and the first pose update is processed normally, even
emitting the non-zero forward command `{1/2, 0}`. -/
theorem config_not_rejected_cex :
    (TurtlesimController.mkInit 2 1 (1/100) (1/2) (3/10)).turn_count = 0 ∧
    pose_callback (TurtlesimController.mkInit 2 1 (1/100) (1/2) (3/10)) ⟨0, 0, 0⟩
      = some ({ with_pose (TurtlesimController.mkInit 2 1 (1/100) (1/2) (3/10))
                    ⟨0, 0, 0⟩ with
                  prev_turn_pose := some ⟨0, 0, 0⟩ }, ⟨1/2, 0⟩) ∧
    ((1 : ℝ)/2 ≠ 0) := by
  have hm : can_move (TurtlesimController.mkInit 2 1 (1/100) (1/2) (3/10)) := by
    decide
  have hd : calc_distance (⟨0, 0, 0⟩ : Pose) ⟨0, 0, 0⟩
      < (TurtlesimController.mkInit 2 1 (1/100) (1/2) (3/10)).param.length_of_side := by
    rw [calc_distance_self]
    norm_num [TurtlesimController.mkInit]
  refine ⟨rfl, ?_, by norm_num⟩
  rw [set_cmd_vel_recapture hm rfl, if_pos hd]
  rfl

/-- C2 amended: the configure step performs no validation; every
configuration, including every invalid one, is accepted, the controller
starts with `turn_count = 0`, and pose updates are processed. -/
theorem invalid_config_still_starts (n : ℤ) (L th v y : ℝ) (msg : Pose)
    (hinvalid : n < 3 ∨ L ≤ 0 ∨ th ≤ 0) :
    (TurtlesimController.mkInit n L th v y).turn_count = 0 ∧
    ∃ s' cmd,
      pose_callback (TurtlesimController.mkInit n L th v y) msg
        = some (s', cmd) := by
  obtain ⟨s', cmd, heq, -⟩ :=
    pose_callback_total_step (TurtlesimController.mkInit n L th v y) msg
  exact ⟨rfl, s', cmd, heq⟩

/-- Witness for the amended C2 at the invalid configuration
`num_of_sides = 2`. -/
theorem invalid_config_still_starts_witness :
    (TurtlesimController.mkInit 2 1 (1/100) (1/2) (3/10)).turn_count = 0 ∧
    ∃ s' cmd,
      pose_callback (TurtlesimController.mkInit 2 1 (1/100) (1/2) (3/10))
          ⟨0, 0, 0⟩
        = some (s', cmd) :=
  invalid_config_still_starts 2 1 (1/100) (1/2) (3/10) ⟨0, 0, 0⟩
    (Or.inl (by norm_num))

/-- C10: the heading-target computation depends only on the configured side
count and the internal corner counter; its explicit pose argument and its
explicit turn-count argument are both ignored. -/
theorem target_direction_pose_independent
    (s1 s2 : TurtlesimController) (pose1 pose2 : Pose) (tc1 tc2 : ℤ)
    (hn : s1.param.num_of_sides = s2.param.num_of_sides)
    (hc : s1.turn_count = s2.turn_count) :
    calc_target_direction s1 pose1 tc1 = calc_target_direction s2 pose2 tc2 :=
  calc_target_direction_congr hn hc

/-- Witness for C10: two controllers agreeing only on side count and corner
counter, fed different poses and different explicit counter arguments. -/
theorem target_direction_pose_independent_witness :
    calc_target_direction (TurtlesimController.mkInit 3 1 (1/100) (1/2) (3/10))
        ⟨0, 0, 0⟩ 0
      = calc_target_direction
          { TurtlesimController.mkInit 3 5 (2/100) (1/4) (1/10) with
              prev_turn_pose := some ⟨4, 4, 1⟩ } ⟨5, 7, 1⟩ 42 :=
  target_direction_pose_independent _ _ _ _ _ _ rfl rfl

/-- C3: at the last corner (`turn_count = num_of_sides - 1`), once the side
length is reached the controller never turns in place, whatever the heading
error: it advances `turn_count` to `num_of_sides`, clears the reference
pose, and publishes the zero command. -/
theorem last_corner_exemption (s : TurtlesimController) (msg ref : Pose)
    (hprev : s.prev_turn_pose = some ref)
    (hlast : s.turn_count = s.param.num_of_sides - 1)
    (hdist : s.param.length_of_side ≤ calc_distance ref msg) :
    pose_callback s msg
      = some ({ with_pose s msg with
                  turn_count := s.turn_count + 1
                  prev_turn_pose := none }, Twist.mk0) ∧
    s.turn_count + 1 = s.param.num_of_sides := by
  have hm : can_move s := by
    unfold can_move
    omega
  have hno : ¬ (s.param.turn_direction_th
      < |calc_target_direction s msg s.turn_count - msg.theta| ∧
      s.turn_count < s.param.num_of_sides - 1) := by
    rintro ⟨-, h2⟩
    omega
  rw [set_cmd_vel_established hm hprev, if_neg (not_lt.mpr hdist), if_neg hno]
  exact ⟨rfl, by omega⟩

/-- Witness for C3: triangle controller at its last corner, one unit away
from the reference pose. -/
theorem last_corner_exemption_witness :
    pose_callback
        { TurtlesimController.mkInit 3 1 (1/100) (1/2) (3/10) with
            turn_count := 2
            prev_turn_pose := some ⟨0, 0, 0⟩ } ⟨1, 0, 0⟩
      = some ({ with_pose
            { TurtlesimController.mkInit 3 1 (1/100) (1/2) (3/10) with
                turn_count := 2
                prev_turn_pose := some ⟨0, 0, 0⟩ } ⟨1, 0, 0⟩ with
              turn_count := 3
              prev_turn_pose := none }, Twist.mk0) :=
  (last_corner_exemption _ ⟨1, 0, 0⟩ ⟨0, 0, 0⟩ rfl (by decide)
    (by norm_num [calc_distance, Real.sqrt_one, TurtlesimController.mkInit])).1

/-- C4: while the distance from the established reference pose is strictly
below the side length (and the run is not terminal), the update publishes
exactly the forward command and leaves `turn_count` and the reference pose
unchanged. -/
theorem go_straight_phase (s : TurtlesimController) (msg ref : Pose)
    (hm : can_move s) (hprev : s.prev_turn_pose = some ref)
    (hdist : calc_distance ref msg < s.param.length_of_side) :
    pose_callback s msg = some (with_pose s msg, ⟨s.turtle.velocity, 0⟩) ∧
    (with_pose s msg).turn_count = s.turn_count ∧
    (with_pose s msg).prev_turn_pose = s.prev_turn_pose := by
  rw [set_cmd_vel_established hm hprev, if_pos hdist]
  exact ⟨rfl, rfl, rfl⟩

/-- Witness for C4: triangle controller half a side away from its reference
pose publishes the forward command `{1/2, 0}`. -/
theorem go_straight_phase_witness :
    pose_callback
        { TurtlesimController.mkInit 3 1 (1/100) (1/2) (3/10) with
            prev_turn_pose := some ⟨0, 0, 0⟩ } ⟨1/2, 0, 0⟩
      = some (with_pose
            { TurtlesimController.mkInit 3 1 (1/100) (1/2) (3/10) with
                prev_turn_pose := some ⟨0, 0, 0⟩ } ⟨1/2, 0, 0⟩,
          ⟨1/2, 0⟩) :=
  (go_straight_phase _ ⟨1/2, 0, 0⟩ ⟨0, 0, 0⟩ (by decide) rfl
    (by
      have hcd : calc_distance ⟨0, 0, 0⟩ ⟨1/2, 0, 0⟩ = 1/2 := by
        show Real.sqrt (((0:ℝ) - 1/2) ^ 2 + ((0:ℝ) - 0) ^ 2) = 1/2
        rw [show ((0:ℝ) - 1/2) ^ 2 + ((0:ℝ) - 0) ^ 2 = (1/2) ^ 2 by norm_num]
        exact Real.sqrt_sq (by norm_num)
      rw [hcd]
      norm_num [TurtlesimController.mkInit])).1

/-- C5: once the side length is reached, if the heading error exceeds the
threshold and the corner is not the last one, the update publishes exactly
the turn-in-place command and leaves `turn_count` and the reference pose
unchanged. -/
theorem turn_in_place_phase (s : TurtlesimController) (msg ref : Pose)
    (hprev : s.prev_turn_pose = some ref)
    (hdist : s.param.length_of_side ≤ calc_distance ref msg)
    (herr : s.param.turn_direction_th
        < |calc_target_direction s msg s.turn_count - msg.theta|)
    (hcnt : s.turn_count < s.param.num_of_sides - 1) :
    pose_callback s msg = some (with_pose s msg, ⟨0, s.turtle.yawrate⟩) ∧
    (with_pose s msg).turn_count = s.turn_count ∧
    (with_pose s msg).prev_turn_pose = s.prev_turn_pose := by
  have hm : can_move s := by
    unfold can_move
    omega
  rw [set_cmd_vel_established hm hprev, if_neg (not_lt.mpr hdist),
    if_pos ⟨herr, hcnt⟩]
  exact ⟨rfl, rfl, rfl⟩

/-- Witness for C5: a square controller one unit from its reference pose
with heading error `pi/2 > 1/100` publishes the turn command `{0, 3/10}`. -/
theorem turn_in_place_phase_witness :
    pose_callback
        { TurtlesimController.mkInit 4 1 (1/100) (1/2) (3/10) with
            prev_turn_pose := some ⟨0, 0, 0⟩ } ⟨1, 0, 0⟩
      = some (with_pose
            { TurtlesimController.mkInit 4 1 (1/100) (1/2) (3/10) with
                prev_turn_pose := some ⟨0, 0, 0⟩ } ⟨1, 0, 0⟩,
          ⟨0, 3/10⟩) :=
  (turn_in_place_phase _ ⟨1, 0, 0⟩ ⟨0, 0, 0⟩ rfl
    (by norm_num [calc_distance, Real.sqrt_one, TurtlesimController.mkInit])
    (by
      have htar : calc_target_direction
          { TurtlesimController.mkInit 4 1 (1/100) (1/2) (3/10) with
              prev_turn_pose := some ⟨0, 0, 0⟩ } ⟨1, 0, 0⟩
          { TurtlesimController.mkInit 4 1 (1/100) (1/2) (3/10) with
              prev_turn_pose := some ⟨0, 0, 0⟩ }.turn_count = Real.pi / 2 := by
        show normalize_loop (2 * Real.pi / ((4:ℤ):ℝ) * (((0:ℤ):ℝ) + 1))
            = Real.pi / 2
        rw [show 2 * Real.pi / ((4:ℤ):ℝ) * (((0:ℤ):ℝ) + 1) = Real.pi / 2 by
          push_cast
          ring]
        exact normalize_loop_of_le (by linarith [Real.pi_pos])
      rw [htar]
      have h0 : |Real.pi / 2 - (⟨1, 0, 0⟩ : Pose).theta| = Real.pi / 2 := by
        rw [show (⟨1, 0, 0⟩ : Pose).theta = 0 from rfl, sub_zero]
        exact abs_of_nonneg (by linarith [Real.pi_pos])
      rw [h0]
      show (1/100 : ℝ) < Real.pi / 2
      linarith [Real.pi_gt_three])
    (by decide)).1

/-- C6: when a non-terminal update finds the side length reached and the
turn condition fails, it increments `turn_count` by exactly one, clears the
reference pose, and publishes the zero command; any next non-terminal update
(with a positive side length) recaptures the reference as its own pose, so
the distance it computes is zero and it goes straight. -/
theorem corner_completion (s : TurtlesimController) (msg ref : Pose)
    (hm : can_move s) (hprev : s.prev_turn_pose = some ref)
    (hdist : s.param.length_of_side ≤ calc_distance ref msg)
    (hnoturn : ¬ (s.param.turn_direction_th
        < |calc_target_direction s msg s.turn_count - msg.theta| ∧
        s.turn_count < s.param.num_of_sides - 1)) :
    pose_callback s msg
      = some ({ with_pose s msg with
                  turn_count := s.turn_count + 1
                  prev_turn_pose := none }, Twist.mk0) ∧
    ∀ msg2 : Pose,
      s.turn_count + 1 < s.param.num_of_sides →
      0 < s.param.length_of_side →
      ∃ s2 : TurtlesimController,
        pose_callback { with_pose s msg with
                          turn_count := s.turn_count + 1
                          prev_turn_pose := none } msg2
            = some (s2, ⟨s.turtle.velocity, 0⟩) ∧
        s2.prev_turn_pose = some msg2 ∧
        calc_distance msg2 msg2 = 0 := by
  constructor
  · rw [set_cmd_vel_established hm hprev, if_neg (not_lt.mpr hdist),
      if_neg hnoturn]
  · intro msg2 hlt hL
    have hmu : can_move { with_pose s msg with
        turn_count := s.turn_count + 1
        prev_turn_pose := none } := hlt
    refine ⟨{ with_pose { with_pose s msg with
          turn_count := s.turn_count + 1
          prev_turn_pose := none } msg2 with
        prev_turn_pose := some msg2 }, ?_, rfl, calc_distance_self msg2⟩
    rw [set_cmd_vel_recapture hmu rfl, calc_distance_self]
    rw [if_pos (show (0:ℝ) < ({ with_pose s msg with
        turn_count := s.turn_count + 1
        prev_turn_pose := none } :
          TurtlesimController).param.length_of_side from hL)]
    rfl

/-- Witness for C6: a square controller completes its first corner (heading
already on target) and the following update recaptures the reference pose
and goes straight. -/
theorem corner_completion_witness :
    pose_callback
        { TurtlesimController.mkInit 4 1 (1/100) (1/2) (3/10) with
            prev_turn_pose := some ⟨0, 0, 0⟩ } ⟨1, 0, Real.pi/2⟩
      = some ({ with_pose
            { TurtlesimController.mkInit 4 1 (1/100) (1/2) (3/10) with
                prev_turn_pose := some ⟨0, 0, 0⟩ } ⟨1, 0, Real.pi/2⟩ with
              turn_count := 1
              prev_turn_pose := none }, Twist.mk0) ∧
    ∃ s2 : TurtlesimController,
      pose_callback { with_pose
            { TurtlesimController.mkInit 4 1 (1/100) (1/2) (3/10) with
                prev_turn_pose := some ⟨0, 0, 0⟩ } ⟨1, 0, Real.pi/2⟩ with
              turn_count := 1
              prev_turn_pose := none } ⟨1, 1, 0⟩
          = some (s2, ⟨1/2, 0⟩) ∧
      s2.prev_turn_pose = some ⟨1, 1, 0⟩ ∧
      calc_distance ⟨1, 1, 0⟩ ⟨1, 1, 0⟩ = 0 := by
  have hc := corner_completion
    { TurtlesimController.mkInit 4 1 (1/100) (1/2) (3/10) with
        prev_turn_pose := some ⟨0, 0, 0⟩ } ⟨1, 0, Real.pi/2⟩ ⟨0, 0, 0⟩
    (by decide) rfl
    (by norm_num [calc_distance, Real.sqrt_one, TurtlesimController.mkInit])
    (by
      rintro ⟨h1, -⟩
      have htar : calc_target_direction
          { TurtlesimController.mkInit 4 1 (1/100) (1/2) (3/10) with
              prev_turn_pose := some ⟨0, 0, 0⟩ } ⟨1, 0, Real.pi/2⟩
          { TurtlesimController.mkInit 4 1 (1/100) (1/2) (3/10) with
              prev_turn_pose := some ⟨0, 0, 0⟩ }.turn_count = Real.pi / 2 := by
        show normalize_loop (2 * Real.pi / ((4:ℤ):ℝ) * (((0:ℤ):ℝ) + 1))
            = Real.pi / 2
        rw [show 2 * Real.pi / ((4:ℤ):ℝ) * (((0:ℤ):ℝ) + 1) = Real.pi / 2 by
          push_cast
          ring]
        exact normalize_loop_of_le (by linarith [Real.pi_pos])
      rw [htar, show (⟨1, 0, Real.pi/2⟩ : Pose).theta = Real.pi/2 from rfl,
        sub_self, abs_zero] at h1
      norm_num [TurtlesimController.mkInit] at h1)
  exact ⟨hc.1, hc.2 ⟨1, 1, 0⟩ (by decide)
    (by norm_num [TurtlesimController.mkInit])⟩

/-- C7: for a valid side count and a corner counter within range, the target
direction is the base angle `(2 pi / num_of_sides) * (turn_count + 1)` fed
through the downward-only normalization loop, and the result lies in the
interval `(-pi, pi]`. -/
theorem target_direction_range (s : TurtlesimController) (pose : Pose)
    (tc : ℤ) (h3 : 3 ≤ s.param.num_of_sides) (h0 : 0 ≤ s.turn_count)
    (hlt : s.turn_count < s.param.num_of_sides) :
    calc_target_direction s pose tc
        = normalize_loop (2 * Real.pi / (s.param.num_of_sides : ℝ)
            * ((s.turn_count : ℝ) + 1)) ∧
    -Real.pi < calc_target_direction s pose tc ∧
    calc_target_direction s pose tc ≤ Real.pi := by
  have hpi := Real.pi_pos
  have hn3 : (3:ℝ) ≤ (s.param.num_of_sides : ℝ) := by exact_mod_cast h3
  have hnpos : (0:ℝ) < (s.param.num_of_sides : ℝ) := by linarith
  have htc0 : (0:ℝ) ≤ (s.turn_count : ℝ) := by exact_mod_cast h0
  have htcn : (s.turn_count : ℝ) + 1 ≤ (s.param.num_of_sides : ℝ) := by
    have h := Int.add_one_le_iff.mpr hlt
    exact_mod_cast h
  set t : ℝ := 2 * Real.pi / (s.param.num_of_sides : ℝ)
      * ((s.turn_count : ℝ) + 1) with ht
  have heq : calc_target_direction s pose tc = normalize_loop t := rfl
  have hpos : 0 < t := by
    rw [ht]
    exact mul_pos (div_pos (by linarith) hnpos) (by linarith)
  have hub : t ≤ 2 * Real.pi := by
    rw [ht, div_mul_eq_mul_div, div_le_iff₀ hnpos]
    exact mul_le_mul_of_nonneg_left htcn (by linarith)
  have hrange : -Real.pi < normalize_loop t ∧ normalize_loop t ≤ Real.pi := by
    by_cases hc : t ≤ Real.pi
    · rw [normalize_loop_of_le hc]
      exact ⟨by linarith, hc⟩
    · push_neg at hc
      rw [normalize_loop_of_gt hc, normalize_loop_of_le (by linarith)]
      exact ⟨by linarith, by linarith⟩
  exact ⟨heq, by rw [heq]; exact hrange.1, by rw [heq]; exact hrange.2⟩

/-- Witness for C7: the triangle controller's first target direction lies in
`(-pi, pi]` (the dead explicit turn-count argument is set to 5 on purpose). -/
theorem target_direction_range_witness :
    -Real.pi < calc_target_direction
        (TurtlesimController.mkInit 3 1 (1/100) (1/2) (3/10)) ⟨0, 0, 0⟩ 5 ∧
    calc_target_direction (TurtlesimController.mkInit 3 1 (1/100) (1/2) (3/10))
        ⟨0, 0, 0⟩ 5 ≤ Real.pi :=
  ⟨(target_direction_range _ ⟨0, 0, 0⟩ 5 (by decide) (by decide)
      (by decide)).2.1,
   (target_direction_range _ ⟨0, 0, 0⟩ 5 (by decide) (by decide)
      (by decide)).2.2⟩

/-- C8: one pose update changes `turn_count` by zero or exactly one and
never decreases it; along any run from a freshly constructed controller with
a valid side count, `0 ≤ turn_count ≤ num_of_sides` holds. -/
theorem turn_count_monotonic_invariant :
    (∀ (s : TurtlesimController) (msg : Pose) (s' : TurtlesimController)
        (cmd : Twist), pose_callback s msg = some (s', cmd) →
        (s'.turn_count = s.turn_count ∨ s'.turn_count = s.turn_count + 1) ∧
        s.turn_count ≤ s'.turn_count) ∧
    (∀ (n : ℤ) (L th v y : ℝ) (msgs : List Pose)
        (s' : TurtlesimController) (cmds : List Twist), 3 ≤ n →
        run_updates (TurtlesimController.mkInit n L th v y) msgs
            = some (s', cmds) →
        0 ≤ s'.turn_count ∧ s'.turn_count ≤ n) := by
  constructor
  · intro s msg s' cmd h
    obtain ⟨s1, cmd1, heq, -, -, -, hstep⟩ := pose_callback_total_step s msg
    rw [heq] at h
    obtain ⟨rfl, rfl⟩ : s1 = s' ∧ cmd1 = cmd := by
      simpa using h
    rcases hstep with h' | ⟨h', -⟩
    · exact ⟨Or.inl h', by omega⟩
    · exact ⟨Or.inr h', by omega⟩
  · intro n L th v y msgs s' cmds h3 hrun
    obtain ⟨ha, hb, hc⟩ := run_updates_invariant msgs
      (TurtlesimController.mkInit n L th v y) s' cmds hrun
      (by norm_num [TurtlesimController.mkInit])
      (by simp [TurtlesimController.mkInit]; omega)
    rw [hc] at hb
    refine ⟨ha, ?_⟩
    simpa [TurtlesimController.mkInit] using hb

/-- Witness for C8: one terminal-state update keeps the counter, and the
empty run from a fresh triangle controller satisfies the invariant. -/
theorem turn_count_monotonic_invariant_witness :
    (((with_pose { TurtlesimController.mkInit 3 1 (1/100) (1/2) (3/10) with
          turn_count := 3 } ⟨0, 0, 0⟩).turn_count
        = ({ TurtlesimController.mkInit 3 1 (1/100) (1/2) (3/10) with
              turn_count := 3 } : TurtlesimController).turn_count ∨
      (with_pose { TurtlesimController.mkInit 3 1 (1/100) (1/2) (3/10) with
          turn_count := 3 } ⟨0, 0, 0⟩).turn_count
        = ({ TurtlesimController.mkInit 3 1 (1/100) (1/2) (3/10) with
              turn_count := 3 } : TurtlesimController).turn_count + 1) ∧
      ({ TurtlesimController.mkInit 3 1 (1/100) (1/2) (3/10) with
          turn_count := 3 } : TurtlesimController).turn_count
        ≤ (with_pose { TurtlesimController.mkInit 3 1 (1/100) (1/2) (3/10) with
            turn_count := 3 } ⟨0, 0, 0⟩).turn_count) ∧
    (0 ≤ (TurtlesimController.mkInit 3 1 (1/100) (1/2) (3/10)).turn_count ∧
      (TurtlesimController.mkInit 3 1 (1/100) (1/2) (3/10)).turn_count ≤ 3) :=
  ⟨turn_count_monotonic_invariant.1 _ ⟨0, 0, 0⟩ _ _
      (pose_callback_stopped ⟨0, 0, 0⟩ (by decide)),
   turn_count_monotonic_invariant.2 3 1 (1/100) (1/2) (3/10) [] _ []
      (by norm_num) rfl⟩

/-- C9: a pose update from any state with a non-negative corner counter (in
particular any reachable state) terminates without raising and returns
exactly one velocity command.  The hypothesis marks the scope within which
the real-valued model and the Python code agree: with a negative counter and
`num_of_sides = 0` the Python code would divide by zero, but no such state
is reachable. -/
theorem pose_update_total (s : TurtlesimController) (msg : Pose)
    (h0 : 0 ≤ s.turn_count) :
    ∃ s' cmd, pose_callback s msg = some (s', cmd) := by
  obtain ⟨s', cmd, heq, -⟩ := pose_callback_total_step s msg
  exact ⟨s', cmd, heq⟩

/-- Witness for C9: a fresh triangle controller processes a pose update. -/
theorem pose_update_total_witness :
    ∃ s' cmd,
      pose_callback (TurtlesimController.mkInit 3 1 (1/100) (1/2) (3/10))
          ⟨0, 0, 0⟩
        = some (s', cmd) :=
  pose_update_total _ ⟨0, 0, 0⟩ (by decide)
